import Mathlib

/-
Verification of the T5 pretraining orchestration layer (pretrain_t5.py).

The development shallowly embeds the functions of the source file:
rank-topology helpers (t5_embedding_ranks, t5_position_embedding_ranks),
the model factory (model_provider), the batch decoder (get_batch) and the
forward step (forward_step).  Collaborators imported from elsewhere in the
repository (tensor_parallel.broadcast_data, config_attention_mask from the
T5 dataset module, loss_func from pretrain_gpt) are not under src/ and are
modelled from the specification; each such definition carries a doc
comment saying so.

Machine tensors are modelled as nested lists: a field of a batch record is
a List (List Int), the outer dimension being the batch dimension.  The
value 0.5 of the padding comparison is modelled exactly as the rational
1/2, since the broadcast values are 64-bit integers and the comparison in
the source is exact.
-/

namespace PretrainT5

/-- Rank-topology helper translated from the source.  Python indexing
pp_ranks[0] and pp_ranks[-1] raises on an empty list, which is modelled by
Option: head? and getLast? are the first and last elements. -/
def t5_embedding_ranks (pp_ranks : List Nat) : Option (List Nat) := do
  let first_rank ← pp_ranks.head?
  let last_rank ← pp_ranks.getLast?
  if pp_ranks.length = 1 then
    return [first_rank]
  else
    return [first_rank, last_rank]

/-- Rank-topology helper translated from the source: the positional
embeddings live on the first rank of the pipeline group. -/
def t5_position_embedding_ranks (pp_ranks : List Nat) : Option (List Nat) := do
  let first_rank ← pp_ranks.head?
  return [first_rank]

/-- The arguments of the training run that the embedded functions read. -/
structure TrainingArgs where
  use_legacy_models : Bool
  pipeline_model_parallel_size : Nat
  encoder_num_layers : Nat
  num_layers : Nat
  transformer_impl : String
deriving Repr, DecidableEq

/-- The model object built by model_provider.  The legacy constructor
records (num_tokentypes, parallel_output, pre_process, post_process,
add_encoder, add_decoder); the core constructor records the per-pipeline
layer counts, the backend string and the four process flags. -/
inductive TrainingModel where
  | legacyT5 : Nat → Bool → Bool → Bool → Bool → Bool → TrainingModel
  | coreT5 : Nat → Nat → String → Bool → Bool → Bool → Bool → TrainingModel
deriving Repr, DecidableEq

/-- Failures of model_provider: the explicit raise for pipeline
parallelism, and the unbound block-spec name when the backend string is
neither of the two recognised values. -/
inductive ProviderError where
  | pipelineParallelNotSupported : ProviderError
  | missingBlockSpec : ProviderError
deriving Repr, DecidableEq

/-- model_provider translated from the source.  The legacy branch builds
the legacy model without any pipeline check; the core branch raises
(ValueError in the source) when pipeline_model_parallel_size exceeds 1
before any block spec or model is constructed, then divides the layer
counts by the pipeline size and dispatches on the backend string. -/
def model_provider (args : TrainingArgs)
    (pre_process post_process add_encoder add_decoder : Bool) :
    Except ProviderError TrainingModel :=
  if args.use_legacy_models then
    .ok (.legacyT5 0 true pre_process post_process add_encoder add_decoder)
  else
    let encoder_num_layers := args.encoder_num_layers
    if args.pipeline_model_parallel_size > 1 then
      .error .pipelineParallelNotSupported
    else
      let encoder_layers_per_pipeline :=
        encoder_num_layers / args.pipeline_model_parallel_size
      let decoder_layers_per_pipeline :=
        args.num_layers / args.pipeline_model_parallel_size
      if args.transformer_impl == "local"
          || args.transformer_impl == "transformer_engine" then
        .ok (.coreT5 encoder_layers_per_pipeline decoder_layers_per_pipeline
          args.transformer_impl pre_process post_process add_encoder add_decoder)
      else
        .error .missingBlockSpec

/-- Evaluation of t5_embedding_ranks on a non-empty group. -/
theorem t5_embedding_ranks_cons (a : Nat) (t : List Nat) (h : (a :: t) ≠ []) :
    t5_embedding_ranks (a :: t) =
      some (if t = [] then [a] else [a, (a :: t).getLast h]) := by
  simp only [t5_embedding_ranks, List.head?_cons, List.getLast?_eq_getLast _ h,
    Option.pure_def, Option.bind_some, List.length_cons]
  split <;> simp_all

/-- Evaluation of t5_position_embedding_ranks on a non-empty group. -/
theorem t5_position_embedding_ranks_cons (a : Nat) (t : List Nat) :
    t5_position_embedding_ranks (a :: t) = some [a] := rfl

/-- C1: for every non-empty pipeline group, t5_embedding_ranks returns
the singleton of the first rank when the group has one element and the
pair of first and last rank otherwise; in particular it maps [5] to [5]
and [5,6,7,8] to [5,8]. -/
theorem embedding_ranks_first_and_last :
    (∀ (g : List Nat) (h : g ≠ []),
      t5_embedding_ranks g =
        some (if g.length = 1 then [g.head h] else [g.head h, g.getLast h])) ∧
    t5_embedding_ranks [5] = some [5] ∧
    t5_embedding_ranks [5, 6, 7, 8] = some [5, 8] := by
  refine ⟨?_, rfl, rfl⟩
  intro g h
  obtain ⟨a, t, rfl⟩ := List.exists_cons_of_ne_nil h
  rw [t5_embedding_ranks_cons a t h]
  simp only [List.length_cons, List.head_cons]
  congr 1
  rcases t with _ | ⟨b, t⟩ <;> simp

/-- Witness for C1 at the concrete group [5,6,7,8]. -/
theorem embedding_ranks_first_and_last_witness :
    t5_embedding_ranks [5, 6, 7, 8] = some [5, 8] := by
  have h := embedding_ranks_first_and_last.1 [5, 6, 7, 8] (by simp)
  simpa using h

/-- C2: for every non-empty pipeline group, t5_position_embedding_ranks
returns exactly the singleton of the first rank, whatever the length of
the group; in particular it maps [5,6,7,8] to [5]. -/
theorem position_embedding_ranks_first :
    (∀ (r : Nat) (rest : List Nat),
      t5_position_embedding_ranks (r :: rest) = some [r]) ∧
    t5_position_embedding_ranks [5, 6, 7, 8] = some [5] := by
  exact ⟨fun r rest => rfl, rfl⟩

/-- C10: every rank returned by t5_position_embedding_ranks for a group is
also returned by t5_embedding_ranks for that group: the first rank hosts
both the token embeddings and the positional embeddings. -/
theorem position_embedding_ranks_subset_embedding_ranks
    (g : List Nat) (pe er : List Nat)
    (hpe : t5_position_embedding_ranks g = some pe)
    (her : t5_embedding_ranks g = some er) :
    ∀ x ∈ pe, x ∈ er := by
  cases g with
  | nil => simp [t5_position_embedding_ranks] at hpe
  | cons a t =>
    rw [t5_position_embedding_ranks_cons] at hpe
    have hpe' : pe = [a] := (Option.some_inj.mp hpe).symm
    subst hpe'
    have hne : (a :: t) ≠ ([] : List Nat) := by simp
    rw [t5_embedding_ranks_cons a t hne] at her
    have her' : er = if t = [] then [a] else [a, (a :: t).getLast hne] :=
      (Option.some_inj.mp her).symm
    subst her'
    intro x hx
    simp only [List.mem_singleton] at hx
    subst hx
    split <;> simp

/-- Witness for C10 at the concrete group [5,6,7,8]: rank 5 is in both
rank sets. -/
theorem position_embedding_ranks_subset_embedding_ranks_witness :
    (5 : Nat) ∈ [5, 8] :=
  position_embedding_ranks_subset_embedding_ranks [5, 6, 7, 8] [5] [5, 8]
    rfl rfl 5 (by simp)

/-- C3 counterexample: a configuration with pipeline size 2 whose
use_legacy_models flag is set builds the legacy model successfully, so
model setup does not fail for every configuration with pipeline stage
count above 1. -/
theorem model_provider_legacy_pipeline2_succeeds :
    model_provider ⟨true, 2, 12, 12, "local"⟩ true true true true =
      .ok (.legacyT5 0 true true true true true) := rfl

/-- C3 amended: for every configuration on the core (non-legacy) path with
pipeline-parallel size greater than 1, model_provider fails with the
pipeline-parallelism error before any block spec or model is constructed. -/
theorem model_provider_pipeline_fails_fast (args : TrainingArgs)
    (pre_process post_process add_encoder add_decoder : Bool)
    (hlegacy : args.use_legacy_models = false)
    (hpp : 1 < args.pipeline_model_parallel_size) :
    model_provider args pre_process post_process add_encoder add_decoder =
      .error .pipelineParallelNotSupported := by
  simp [model_provider, hlegacy, hpp]

/-- Witness for C3 amended at a concrete core configuration with pipeline
size 2. -/
theorem model_provider_pipeline_fails_fast_witness :
    model_provider ⟨false, 2, 12, 12, "local"⟩ true true true true =
      .error .pipelineParallelNotSupported :=
  model_provider_pipeline_fails_fast ⟨false, 2, 12, 12, "local"⟩
    true true true true rfl (by norm_num)

/-- A raw batch record after the collective broadcast: the six named
fields of the T5 batch, each an integer tensor whose outer dimension is
the batch dimension (the broadcast datatype is int64 for every field). -/
structure RawBatchRecord where
  text_enc : List (List Int)
  text_dec : List (List Int)
  labels : List (List Int)
  loss_mask : List (List Int)
  enc_mask : List (List Int)
  dec_mask : List (List Int)
deriving Repr, DecidableEq

/-- Failures of the batch decoder and of the loss closure. -/
inductive BatchError where
  | shapeError : BatchError
  | degenerateBatch : BatchError
deriving Repr, DecidableEq

/-- The comparison with 0.5 from the source line enc_mask < 0.5: the
broadcast values are 64-bit integers, so the comparison is the exact
order of the integer against the rational 1/2. -/
def lt_half (v : Int) : Bool :=
  decide ((v : ℚ) < 1 / 2)

/-- Elementwise application of the 0.5 comparison to a broadcast padding
indicator field, giving the boolean validity mask of the source. -/
def mask_lt_half (m : List (List Int)) : List (List Bool) :=
  m.map (List.map lt_half)

/-- The .float() conversion of the loss-mask field, modelled as the exact
cast of the integer entries into the rationals. -/
def float_rows (m : List (List Int)) : List (List ℚ) :=
  m.map (List.map (fun v => ((v : Int) : ℚ)))

/-- An attention mask as handed to a backend: the local backend consumes
the plain matrices, the other backend consumes the same content reshaped
with singleton dimensions inserted; both carry one boolean matrix per
batch element. -/
inductive BackendMask where
  | localMask : List (List (List Bool)) → BackendMask
  | expanded : List (List (List Bool)) → BackendMask
deriving Repr, DecidableEq

/-- The boolean matrices carried by a backend mask. -/
def BackendMask.content : BackendMask → List (List (List Bool))
  | .localMask m => m
  | .expanded m => m

/-- Outer product of two validity vectors: entry (i, j) is attendable iff
query position i is valid and key position j is valid. -/
def make_attention_mask (q k : List Bool) : List (List Bool) :=
  q.map (fun qi => k.map (fun kj => qi && kj))

/-- Decoder self-attention mask over one validity vector: entry (i, j) is
attendable iff positions i and j are both valid and j does not lie in the
future of i. -/
def make_decoder_self_mask (d : List Bool) : List (List Bool) :=
  (List.range d.length).map (fun i =>
    (List.range d.length).map (fun j =>
      d.getD i false && d.getD j false && decide (j ≤ i)))

/-- Modelled from the spec: T5MaskedWordPieceDataset.config_attention_mask
is imported from the dataset module and is not under src/.  Following
section 4.1, it builds the encoder self-mask as the outer product of the
encoder validity with itself, the decoder self-mask as the causal outer
product of the decoder validity, and the cross-mask pairing decoder
queries with encoder keys, one matrix per batch element; when the backend
flag is not local the three masks are reshaped for the other backend. -/
def config_attention_mask (tokens_enc tokens_dec : List (List Int))
    (enc_valid dec_valid : List (List Bool)) (use_local : Bool) :
    BackendMask × BackendMask × BackendMask :=
  let _ := tokens_enc
  let _ := tokens_dec
  let enc_self := enc_valid.map (fun row => make_attention_mask row row)
  let dec_self := dec_valid.map make_decoder_self_mask
  let cross := List.zipWith make_attention_mask dec_valid enc_valid
  if use_local then
    (.localMask enc_self, .localMask dec_self, .localMask cross)
  else
    (.expanded enc_self, .expanded dec_self, .expanded cross)

/-- Modelled from the spec: the batch-dimension consistency check of
section 4.2 lives in the broadcast and mask-construction collaborators,
which are not under src/.  It holds iff the six fields share one batch
dimension. -/
def batch_dims_agree (r : RawBatchRecord) : Bool :=
  r.text_dec.length == r.text_enc.length &&
  r.labels.length == r.text_enc.length &&
  r.loss_mask.length == r.text_enc.length &&
  r.enc_mask.length == r.text_enc.length &&
  r.dec_mask.length == r.text_enc.length

/-- get_batch translated from the source, acting on the record that the
broadcast delivered to every rank of the tensor-parallel group: unpack
the six fields, convert the two padding indicators with the 0.5
comparison, invoke the mask builder with the backend flag, and return the
seven outputs; the batch-dimension check is modelled from the spec and
fails with ShapeError. -/
def get_batch (data_b : RawBatchRecord) (use_local : Bool) :
    Except BatchError
      (List (List Int) × List (List Int) × List (List ℚ) × List (List Int) ×
        BackendMask × BackendMask × BackendMask) :=
  if batch_dims_agree data_b then
    let tokens_enc := data_b.text_enc
    let tokens_dec := data_b.text_dec
    let labels := data_b.labels
    let loss_mask := float_rows data_b.loss_mask
    let enc_mask := mask_lt_half data_b.enc_mask
    let dec_mask := mask_lt_half data_b.dec_mask
    let masks := config_attention_mask tokens_enc tokens_dec enc_mask dec_mask use_local
    .ok (tokens_enc, tokens_dec, loss_mask, labels, masks.1, masks.2.1, masks.2.2)
  else
    .error .shapeError

/-- Modelled from the spec: loss_func is imported from pretrain_gpt and is
not under src/.  Following section 4.5, the loss is the weighted mean of
the per-position losses, normalised by the sum of the weights, and a zero
total weight fails with DegenerateBatchError instead of producing a
division by zero. -/
def loss_func (loss_mask : List (List ℚ)) (losses : List ℚ) :
    Except BatchError ℚ :=
  let total := (loss_mask.map List.sum).sum
  if total = 0 then
    .error .degenerateBatch
  else
    .ok ((List.zipWith (fun a b => a * b) losses loss_mask.flatten).sum / total)

/-- forward_step translated from the source: read the backend flag from
the arguments, decode the batch, invoke the model with the six tensors in
the source's order, and return the output together with the loss closure
that has the loss weights bound. -/
def forward_step {α : Type} (args : TrainingArgs) (data_b : RawBatchRecord)
    (model : List (List Int) → List (List Int) → BackendMask → BackendMask →
      BackendMask → List (List Int) → α) :
    Except BatchError (α × (List ℚ → Except BatchError ℚ)) := do
  let use_local := args.transformer_impl == "local"
  let (tokens_enc, tokens_dec, loss_mask, lm_labels, enc_mask, dec_mask, enc_dec_mask) ←
    get_batch data_b use_local
  let output_tensor := model tokens_enc tokens_dec enc_mask dec_mask enc_dec_mask lm_labels
  return (output_tensor, loss_func loss_mask)

/-- getD of an in-bounds index commutes with map. -/
theorem getD_map_of_lt {α β : Type} (f : α → β) (l : List α) (n : Nat)
    (d : β) (d' : α) (h : n < l.length) :
    (l.map f).getD n d = f (l.getD n d') := by
  induction l generalizing n with
  | nil => simp at h
  | cons a l ih =>
    cases n with
    | zero => simp
    | succ n =>
      simp only [List.length_cons, Nat.succ_lt_succ_iff] at h
      simpa using ih n h

/-- Scaling a row by a fixed query bit commutes with getD, with false as
the default on both sides. -/
theorem map_and_getD (a : Bool) (k : List Bool) (j : Nat) :
    (k.map (fun kj => a && kj)).getD j false = (a && k.getD j false) := by
  induction k generalizing j with
  | nil => simp
  | cons b k ih =>
    cases j with
    | zero => simp
    | succ j => simpa using ih j

/-- Pointwise description of make_attention_mask, with false as the
default outside the matrix. -/
theorem make_attention_mask_getD (q k : List Bool) (i j : Nat) :
    ((make_attention_mask q k).getD i []).getD j false =
      (q.getD i false && k.getD j false) := by
  induction q generalizing i with
  | nil => simp [make_attention_mask]
  | cons a q ih =>
    cases i with
    | zero => simpa [make_attention_mask] using map_and_getD a k j
    | succ i => simpa [make_attention_mask] using ih i

/-- Pointwise description of the batched cross-mask built by zipping the
decoder validity rows with the encoder validity rows. -/
theorem cross_rows_getD (dv ev : List (List Bool)) (b i j : Nat) :
    (((List.zipWith make_attention_mask dv ev).getD b []).getD i []).getD j false =
      ((dv.getD b []).getD i false && (ev.getD b []).getD j false) := by
  induction dv generalizing ev b with
  | nil => simp
  | cons d dv ih =>
    cases ev with
    | nil => simp
    | cons e ev =>
      cases b with
      | zero => simpa using make_attention_mask_getD d e i j
      | succ b => simpa using ih ev b

/-- C9: at every batch element b and every position (i, j), the cross-mask
produced by the mask builder is attendable exactly when decoder position i
and encoder position j are both valid, whichever backend is selected. -/
theorem cross_mask_pointwise (tokens_enc tokens_dec : List (List Int))
    (enc_valid dec_valid : List (List Bool)) (use_local : Bool) (b i j : Nat) :
    ((((config_attention_mask tokens_enc tokens_dec enc_valid dec_valid
        use_local).2.2).content.getD b []).getD i []).getD j false =
      ((dec_valid.getD b []).getD i false && (enc_valid.getD b []).getD j false) := by
  cases use_local <;>
    simpa [config_attention_mask, BackendMask.content] using
      cross_rows_getD dec_valid enc_valid b i j

/-- C4: at every in-bounds position of a padding-indicator field, the
validity mask computed by the batch decoder is true exactly when the raw
integer value is strictly below one half. -/
theorem batch_decoder_padding_lt_half (m : List (List Int)) (b i : Nat)
    (hb : b < m.length) (hi : i < (m.getD b []).length) :
    (((mask_lt_half m).getD b []).getD i false = true ↔
      (((m.getD b []).getD i 0 : Int) : ℚ) < 1 / 2) := by
  rw [mask_lt_half, getD_map_of_lt (List.map lt_half) m b [] [] hb,
    getD_map_of_lt lt_half (m.getD b []) i false 0 hi]
  simp [lt_half]

/-- Witness for C4 at the field [[0, 1]], batch element 0, position 0:
the raw value 0 is below one half and the mask is true there. -/
theorem batch_decoder_padding_lt_half_witness :
    (((mask_lt_half [[0, 1]]).getD 0 []).getD 0 false = true ↔
      ((([[0, 1]] : List (List Int)).getD 0 []).getD 0 0 : ℚ) < 1 / 2) :=
  batch_decoder_padding_lt_half [[0, 1]] 0 0 (by decide) (by decide)

/-- C5: on a record whose batch dimensions agree, get_batch invokes the
mask builder with the backend flag and returns the seven outputs in the
order (encoder tokens, decoder tokens, loss weights, labels, encoder
self-mask, decoder self-mask, cross-mask). -/
theorem get_batch_seven_tuple (r : RawBatchRecord) (use_local : Bool)
    (h : batch_dims_agree r = true) :
    get_batch r use_local =
      .ok (r.text_enc, r.text_dec, float_rows r.loss_mask, r.labels,
        (config_attention_mask r.text_enc r.text_dec (mask_lt_half r.enc_mask)
          (mask_lt_half r.dec_mask) use_local).1,
        (config_attention_mask r.text_enc r.text_dec (mask_lt_half r.enc_mask)
          (mask_lt_half r.dec_mask) use_local).2.1,
        (config_attention_mask r.text_enc r.text_dec (mask_lt_half r.enc_mask)
          (mask_lt_half r.dec_mask) use_local).2.2) := by
  simp [get_batch, h]

/-- Witness for C5 at the empty record with the local backend. -/
theorem get_batch_seven_tuple_witness :
    get_batch ⟨[], [], [], [], [], []⟩ true =
      .ok (([] : List (List Int)), ([] : List (List Int)),
        ([] : List (List ℚ)), ([] : List (List Int)),
        (config_attention_mask [] [] (mask_lt_half []) (mask_lt_half []) true).1,
        (config_attention_mask [] [] (mask_lt_half []) (mask_lt_half []) true).2.1,
        (config_attention_mask [] [] (mask_lt_half []) (mask_lt_half []) true).2.2) :=
  get_batch_seven_tuple ⟨[], [], [], [], [], []⟩ true rfl

/-- C7: on a record whose six fields disagree in their batch dimension,
get_batch fails with ShapeError instead of returning tensors. -/
theorem get_batch_shape_error (r : RawBatchRecord) (use_local : Bool)
    (h : batch_dims_agree r = false) :
    get_batch r use_local = .error .shapeError := by
  simp [get_batch, h]

/-- Witness for C7 at a record whose decoder-token field has one batch
element while the other fields have none. -/
theorem get_batch_shape_error_witness :
    get_batch ⟨[], [[1]], [], [], [], []⟩ true = .error .shapeError :=
  get_batch_shape_error ⟨[], [[1]], [], [], [], []⟩ true rfl

/-- Evaluation of forward_step when the batch decoding succeeds: the
model is applied to the six tensors in the source's order and the loss
closure is loss_func with the weights bound. -/
theorem forward_step_eq {α : Type} (args : TrainingArgs) (r : RawBatchRecord)
    (model : List (List Int) → List (List Int) → BackendMask → BackendMask →
      BackendMask → List (List Int) → α)
    (te td lb : List (List Int)) (lm : List (List ℚ)) (em dm edm : BackendMask)
    (h : get_batch r (args.transformer_impl == "local") =
      .ok (te, td, lm, lb, em, dm, edm)) :
    forward_step args r model = .ok (model te td em dm edm lb, loss_func lm) := by
  simp [forward_step, h]

/-- C6: whenever the batch decoder yields the seven-tuple, forward_step
invokes the model with (encoder tokens, decoder tokens, encoder mask,
decoder mask, cross mask, labels) in that order and returns the model
output paired with the loss closure that has the loss weights bound. -/
theorem forward_step_invocation {α : Type} (args : TrainingArgs)
    (r : RawBatchRecord)
    (model : List (List Int) → List (List Int) → BackendMask → BackendMask →
      BackendMask → List (List Int) → α)
    (te td lb : List (List Int)) (lm : List (List ℚ)) (em dm edm : BackendMask)
    (h : get_batch r (args.transformer_impl == "local") =
      .ok (te, td, lm, lb, em, dm, edm)) :
    forward_step args r model = .ok (model te td em dm edm lb, loss_func lm) :=
  forward_step_eq args r model te td lb lm em dm edm h

/-- Witness for C6 at the empty record, the local backend and a model that
records its six arguments. -/
theorem forward_step_invocation_witness :
    forward_step ⟨false, 1, 12, 12, "local"⟩ ⟨[], [], [], [], [], []⟩
        (fun a b c d e f => (a, b, c, d, e, f)) =
      .ok ((([] : List (List Int)), ([] : List (List Int)),
        BackendMask.localMask [], BackendMask.localMask [],
        BackendMask.localMask [], ([] : List (List Int))), loss_func []) :=
  forward_step_invocation ⟨false, 1, 12, 12, "local"⟩ ⟨[], [], [], [], [], []⟩
    (fun a b c d e f => (a, b, c, d, e, f)) [] [] [] []
    (.localMask []) (.localMask []) (.localMask []) rfl

/-- The total weight computed by the loss closure vanishes when every raw
loss-mask entry is zero. -/
theorem float_rows_sum_zero (m : List (List Int))
    (hz : ∀ row ∈ m, ∀ v ∈ row, v = 0) :
    ((float_rows m).map List.sum).sum = 0 := by
  rw [float_rows, List.map_map]
  apply List.sum_eq_zero
  intro x hx
  simp only [List.mem_map, Function.comp] at hx
  obtain ⟨row, hrow, rfl⟩ := hx
  apply List.sum_eq_zero
  intro y hy
  simp only [List.mem_map] at hy
  obtain ⟨v, hv, rfl⟩ := hy
  simp [hz row hrow v hv]

/-- C8: when every loss weight of the microbatch is zero, the loss closure
returned by forward_step fails with DegenerateBatchError on any losses,
instead of dividing by the zero total. -/
theorem forward_step_zero_weights {α : Type} (args : TrainingArgs)
    (r : RawBatchRecord)
    (model : List (List Int) → List (List Int) → BackendMask → BackendMask →
      BackendMask → List (List Int) → α)
    (out : α) (closure : List ℚ → Except BatchError ℚ) (losses : List ℚ)
    (hok : forward_step args r model = .ok (out, closure))
    (hzero : ∀ row ∈ r.loss_mask, ∀ v ∈ row, v = 0) :
    closure losses = .error .degenerateBatch := by
  cases hda : batch_dims_agree r with
  | false =>
    have hgb : get_batch r (args.transformer_impl == "local") =
        .error .shapeError := by
      simp [get_batch, hda]
    rw [forward_step] at hok
    rw [hgb] at hok
    simp [Except.bind] at hok
  | true =>
    have hgb : get_batch r (args.transformer_impl == "local") =
        .ok (r.text_enc, r.text_dec, float_rows r.loss_mask, r.labels,
          (config_attention_mask r.text_enc r.text_dec (mask_lt_half r.enc_mask)
            (mask_lt_half r.dec_mask) (args.transformer_impl == "local")).1,
          (config_attention_mask r.text_enc r.text_dec (mask_lt_half r.enc_mask)
            (mask_lt_half r.dec_mask) (args.transformer_impl == "local")).2.1,
          (config_attention_mask r.text_enc r.text_dec (mask_lt_half r.enc_mask)
            (mask_lt_half r.dec_mask) (args.transformer_impl == "local")).2.2) := by
      simp [get_batch, hda]
    have hfs := forward_step_eq args r model r.text_enc r.text_dec r.labels
      (float_rows r.loss_mask) _ _ _ hgb
    have hpair := hfs.symm.trans hok
    simp only [Except.ok.injEq, Prod.mk.injEq] at hpair
    obtain ⟨-, hcl⟩ := hpair
    rw [← hcl]
    have ht := float_rows_sum_zero r.loss_mask hzero
    simp [loss_func, ht]

/-- Witness for C8 at a one-row record whose loss weights are zero. -/
theorem forward_step_zero_weights_witness :
    loss_func (float_rows [[0, 0]]) [1, 1] = .error .degenerateBatch :=
  forward_step_zero_weights ⟨false, 1, 12, 12, "local"⟩
    ⟨[[7]], [[8]], [[9]], [[0, 0]], [[0]], [[0]]⟩
    (fun _ _ _ _ _ _ => (0 : Nat)) (0 : Nat)
    (loss_func (float_rows [[0, 0]])) [1, 1] rfl (by decide)

end PretrainT5
